import Mathlib

/-!
Shallow embedding of the `mylib` utility library
(src/example/workspace/mylib/mylib.cc):

  int add(int a, int b) { return a + b; }

  std::string greet(const std::string &name) {
    return fmt::format("Hello, {}!", name);
  }

`add` works on the platform's 32-bit signed `int`; the spec fixes
two's-complement wraparound semantics for overflow, so the embedding
computes the mathematical sum and reduces it into the representable
window `[-2^31, 2^31)` modulo `2^32`.

`greet` calls `fmt::format` with the single-placeholder template
"Hello, {}!"; the embedding models that call as substitution of the
argument for the `\x7b\x7d` placeholder in the template's character
list.
-/

namespace mylib

/-- An integer lies in the range of a 32-bit signed `int`. -/
def representable (x : Int) : Prop :=
  -2147483648 ≤ x ∧ x < 2147483648

instance (x : Int) : Decidable (representable x) := by
  unfold representable; infer_instance

/-- Reduce an integer into `[-2^31, 2^31)` modulo `2^32`
(two's-complement wraparound for 32-bit `int`). -/
def wrap32 (x : Int) : Int :=
  (x + 2147483648) % 4294967296 - 2147483648

/-- Embedding of `mylib::add`: `return a + b;` on 32-bit `int`,
with the wraparound semantics the spec fixes for overflow. -/
def add (a b : Int) : Int :=
  wrap32 (a + b)

/-- Substitute `arg` for the placeholder `\x7b\x7d` in a format
character list (the behaviour of `fmt::format` on a template with a
single placeholder and one argument). -/
def formatOne (f : List Char) (arg : String) : List Char :=
  match f with
  | [] => []
  | '{' :: '}' :: rest => arg.data ++ rest
  | c :: rest => c :: formatOne rest arg

/-- The character list of the template "Hello, \x7b\x7d!". -/
def greetTemplate : List Char :=
  ['H', 'e', 'l', 'l', 'o', ',', ' ', '{', '}', '!']

/-- Embedding of `mylib::greet`:
`return fmt::format("Hello, \x7b\x7d!", name);`. -/
def greet (name : String) : String :=
  String.mk (formatOne greetTemplate name)

/-- Shared lemma: `greet` is exactly the literal concatenation
`"Hello, " ++ name ++ "!"`. -/
theorem greet_concat (name : String) :
    greet name = "Hello, " ++ name ++ "!" := by
  apply congrArg String.mk
  show formatOne greetTemplate name =
    ("Hello, " ++ name ++ "!").data
  simp [formatOne, greetTemplate, String.data_append]

end mylib

namespace mylib

/-- C1: for every string `s`, `greet s` is the exact literal
concatenation `"Hello, " ++ s ++ "!"`: the input is interpolated
unchanged into the fixed template, with no trimming, case
transformation, validation or alteration, whatever its content. -/
theorem greet_is_literal_concatenation (s : String) :
    greet s = "Hello, " ++ s ++ "!" :=
  greet_concat s

/-- C1 witness. -/
theorem greet_is_literal_concatenation_witness :
    greet "a\tb" = "Hello, " ++ "a\tb" ++ "!" :=
  greet_is_literal_concatenation "a\tb"

/-- C2: for representable 32-bit signed `a` and `b`, `add a b` is
congruent to the arithmetic sum `a + b` modulo `2^32` and lands in the
representable window (two's-complement wraparound); no overflow error
is raised (the result always exists). -/
theorem add_wraps_mod_two_pow_32 (a b : Int)
    (_ha : representable a) (_hb : representable b) :
    add a b % 4294967296 = (a + b) % 4294967296 ∧
      representable (add a b) := by
  unfold representable
  unfold add wrap32
  omega

/-- C2 witness: `2^31 - 1 + 1` wraps to `-2^31`. -/
theorem add_wraps_mod_two_pow_32_witness :
    representable 2147483647 ∧ representable 1 ∧
      add 2147483647 1 = -2147483648 := by
  refine ⟨by decide, by decide, ?_⟩
  have h := add_wraps_mod_two_pow_32 2147483647 1 (by decide) (by decide)
  revert h
  decide

/-- C3: `add` is total on pairs of representable integers and `greet`
is total on all strings: each call returns a value (the embedding
returns plain values, not error results). -/
theorem add_greet_total (a b : Int) (s : String)
    (_ha : representable a) (_hb : representable b) :
    (∃ r : Int, add a b = r) ∧ (∃ t : String, greet s = t) :=
  ⟨⟨add a b, rfl⟩, ⟨greet s, rfl⟩⟩

/-- C3 witness. -/
theorem add_greet_total_witness :
    (∃ r : Int, add 7 (-9) = r) ∧
      (∃ t : String, greet "Zoe" = t) :=
  add_greet_total 7 (-9) "Zoe" (by decide) (by decide)

/-- C4: `add` is commutative, in particular on all representable
pairs. -/
theorem add_comm_all (a b : Int) : add a b = add b a := by
  unfold add wrap32
  rw [Int.add_comm a b]

/-- C5: `add` and `greet` are deterministic and depend only on their
inputs: calls at equal inputs give equal results. -/
theorem add_greet_deterministic (a b a' b' : Int) (s s' : String)
    (hab : a = a') (hbb : b = b') (hss : s = s') :
    add a b = add a' b' ∧ greet s = greet s' := by
  subst hab hbb hss
  exact ⟨rfl, rfl⟩

/-- C5 witness. -/
theorem add_greet_deterministic_witness :
    add 4 5 = add 4 5 ∧ greet "Ada" = greet "Ada" :=
  add_greet_deterministic 4 5 4 5 "Ada" "Ada" rfl rfl rfl

/-- C6: `greet ""` is the well-formed greeting "Hello, !". -/
theorem greet_empty : greet "" = "Hello, !" := by decide

/-- C7: the concrete `add` test vectors of the spec and of
`mylib_test.cc` hold. -/
theorem add_test_vectors :
    add 0 0 = 0 ∧ add (-5) 5 = 0 ∧ add 1 2 = 3 := by decide

/-- C8: the concrete `greet` test vectors of the spec and of
`mylib_test.cc` hold. -/
theorem greet_test_vectors :
    greet "Alice" = "Hello, Alice!" ∧ greet "Bob" = "Hello, Bob!" := by
  decide

/-- C9: zero is a two-sided identity of `add` on representable
integers. -/
theorem add_zero_identity (a : Int) (ha : representable a) :
    add a 0 = a ∧ add 0 a = a := by
  unfold representable at ha
  unfold add wrap32
  omega

/-- C9 witness. -/
theorem add_zero_identity_witness :
    representable (-41) ∧ add (-41) 0 = -41 ∧ add 0 (-41) = -41 := by
  refine ⟨by decide, ?_⟩
  have h := add_zero_identity (-41) (by decide)
  exact h

/-- C10: `greet` is injective: equal greetings come from equal names
(the name is recoverable by stripping the fixed seven leading
characters "Hello, " and the trailing "!"). -/
theorem greet_injective (s₁ s₂ : String)
    (h : greet s₁ = greet s₂) : s₁ = s₂ := by
  rw [greet_concat s₁, greet_concat s₂] at h
  have hdata := congrArg String.data h
  simp only [String.data_append, List.append_assoc] at hdata
  have h₁ := List.append_cancel_left hdata
  have h₂ := List.append_cancel_right h₁
  cases s₁
  cases s₂
  exact congrArg String.mk h₂

/-- C10 witness. -/
theorem greet_injective_witness : "Eve" = "Eve" :=
  greet_injective "Eve" "Eve" rfl

end mylib
